import Mathlib

/-!
Verification of the isolation bootstrap of silranucci/cfs (src/main.rs).

Shallow embedding: every libc call and subprocess invocation is an
interaction with the outside world, so its outcome is an input of the
model, collected in the `Env` record (one field per call site, holding
what the call returned on this launch).  Each Rust function becomes a
Lean function returning the list of observable actions it performed
(`List Ev`, in program order) together with its result:
`Except.ok` models normal return, `Except.error msg` models a Rust
panic or process abort carrying the panic message (format arguments
such as the OS error text are elided from the message).  The child
bootstrap `child_func` is the source sequence of calls, where a panic
in any step stops the sequence, exactly as a Rust panic aborts the
child process.
-/

namespace Cfs

/-- Observable actions of the program, one constructor per call site of
src/main.rs.  `whichDebootstrap`, `aptUpdate`, `aptInstall` and
`debootstrapRun` are the subprocess invocations of `ensure_debootstrap`
and `bootstrap_rootfs`; the remaining constructors are the libc and fs
calls of the child bootstrap, carrying the arguments the source passes. -/
inductive Ev where
  | whichDebootstrap
  | aptUpdate
  | aptInstall
  | debootstrapRun (path mirror : String)
  | sethostnameCall (name : String)
  | logErr (msg : String)
  | chrootCall (path : String)
  | chdirCall (path : String)
  | mountCall (source target fstype : String)
  | mkdirCall (path : String)
  | writePidsMax (path content : String)
  | writeNotify (path content : String)
  | writeProcs (path content : String)
  | execTarget (prog : String) (args : List String)
  | umountCall (target : String)
deriving DecidableEq

/-- Position of each action in the bootstrap order of `child_func`
(source lines 67-82).  A trace that is strictly increasing under `rank`
follows the source sequence. -/
def rank : Ev → Nat
  | .whichDebootstrap => 0
  | .aptUpdate => 1
  | .aptInstall => 2
  | .debootstrapRun _ _ => 3
  | .sethostnameCall _ => 4
  | .logErr _ => 5
  | .chrootCall _ => 6
  | .chdirCall _ => 7
  | .mountCall _ _ _ => 8
  | .mkdirCall _ => 9
  | .writePidsMax _ _ => 10
  | .writeNotify _ _ => 11
  | .writeProcs _ _ => 12
  | .execTarget _ _ => 13
  | .umountCall _ => 14

/-- The fixed root path of the substitute tree (line 68). -/
def rootPath : String := "/home/ubuntu-fs"

/-- The isolated hostname (line 73). -/
def hostname : String := "container"

/-- The fixed cgroup directory: PathBuf::from of /sys/fs/cgroup/ joined
with pids (lines 148-149). -/
def pidsDir : String := "/sys/fs/cgroup/pids"

/-- The message of the Rust index panic raised by an out-of-bounds
access such as args[0] on an empty vector. -/
def oobMsg : String := "index out of bounds: the len is 0 but the index is 0"

/-- Outcomes of every call the program makes to the outside world, one
field per call site of src/main.rs.  Boolean fields state whether the
call reported success (for libc calls, whether the return value was 0,
respectively nonnegative for clone). -/
structure Env where
  /-- Path::exists of the root path (line 159). -/
  pathExists : Bool
  /-- `which debootstrap` could be run and exited successfully (lines 180-185). -/
  whichOk : Bool
  /-- `apt-get install -y debootstrap` could be spawned (lines 191-194);
  its exit status is not inspected by the source. -/
  aptInstallSpawnOk : Bool
  /-- `debootstrap` invocation (lines 169-172): `none` when the spawn
  itself failed, `some b` when it ran with b = status.success(). -/
  debootstrapStatus : Option Bool
  /-- libc::sethostname returned 0 (lines 133-138). -/
  sethostnameOk : Bool
  /-- libc::chroot returned 0 (line 86). -/
  chrootOk : Bool
  /-- env::set_current_dir of the new root succeeded (line 90). -/
  chdirOk : Bool
  /-- libc::mount returned 0 (lines 109-115). -/
  mountOk : Bool
  /-- libc::umount returned 0 (line 126). -/
  umountOk : Bool
  /-- fs::create_dir_all of the cgroup dir succeeded (line 151);
  create_dir_all also succeeds when the directory already exists. -/
  mkdirOk : Bool
  /-- fs::write of pids.max succeeded (line 152). -/
  writePidsMaxOk : Bool
  /-- fs::write of notify_on_release succeeded (line 153). -/
  writeNotifyOk : Bool
  /-- fs::write of cgroup.procs succeeded (lines 154-155). -/
  writeProcsOk : Bool
  /-- Command::status of the target command (line 99): `none` when the
  command could not be located or started, `some none` when it ran but
  terminated without an exit code (killed by a signal), `some (some c)`
  when it exited with code c. -/
  cmdStatus : Option (Option Int)
  /-- cfg!(target_arch = "aarch64") (line 163). -/
  aarch64 : Bool
  /-- std::process::id() as seen in the child (line 154). -/
  childPid : Nat
  /-- libc::clone returned a nonnegative pid (lines 42-49). -/
  cloneOk : Bool
  /-- libc::unshare(CLONE_NEWNS) returned 0 (line 56). -/
  unshareOk : Bool
  /-- the return value of libc::waitpid (line 63); the source discards it. -/
  waitpidRet : Int
deriving DecidableEq

/-- Mirror URL selection of bootstrap_rootfs (lines 163-167). -/
def mirror (e : Env) : String :=
  if e.aarch64 then "http://ports.ubuntu.com/ubuntu-ports"
  else "http://archive.ubuntu.com/ubuntu"

/-- fn ensure_debootstrap (lines 179-195): probe with `which`; when the
probe fails or cannot run, refresh indexes (exit status ignored via
.ok()) and install, panicking only when the install command cannot be
spawned (its exit status is not checked by the source). -/
def ensure_debootstrap (e : Env) : List Ev × Except String Unit :=
  if e.whichOk then
    ([Ev.whichDebootstrap], Except.ok ())
  else if e.aptInstallSpawnOk then
    ([Ev.whichDebootstrap, Ev.aptUpdate, Ev.aptInstall], Except.ok ())
  else
    ([Ev.whichDebootstrap, Ev.aptUpdate, Ev.aptInstall],
      Except.error "failed to install debootstrap")

/-- fn bootstrap_rootfs (lines 158-177): return at once when the path
exists, otherwise run debootstrap, panicking when it cannot be spawned
or does not exit successfully. -/
def bootstrap_rootfs (e : Env) (path : String) : List Ev × Except String Unit :=
  if e.pathExists then ([], Except.ok ())
  else
    match e.debootstrapStatus with
    | none => ([Ev.debootstrapRun path (mirror e)], Except.error "failed to run debootstrap")
    | some true => ([Ev.debootstrapRun path (mirror e)], Except.ok ())
    | some false => ([Ev.debootstrapRun path (mirror e)], Except.error "debootstrap failed")

/-- fn set_hostname (lines 132-145): on libc failure print a diagnostic
to stderr and return normally; never panics. -/
def set_hostname (e : Env) (name : String) : List Ev × Except String Unit :=
  if e.sethostnameOk then
    ([Ev.sethostnameCall name], Except.ok ())
  else
    ([Ev.sethostnameCall name, Ev.logErr "Failed to set hostname"], Except.ok ())

/-- fn chroot (lines 84-91): libc::chroot, panicking on failure before
the chdir is ever attempted, then set_current_dir to the new root,
panicking (expect) on failure. -/
def chroot (e : Env) (path : String) : List Ev × Except String Unit :=
  if e.chrootOk then
    if e.chdirOk then
      ([Ev.chrootCall path, Ev.chdirCall "/"], Except.ok ())
    else
      ([Ev.chrootCall path, Ev.chdirCall "/"], Except.error "chdir failed")
  else
    ([Ev.chrootCall path], Except.error "chroot failed")

/-- fn mount_proc (lines 103-120): mount proc at /proc with fstype proc,
panicking on failure. -/
def mount_proc (e : Env) : List Ev × Except String Unit :=
  if e.mountOk then
    ([Ev.mountCall "proc" "/proc" "proc"], Except.ok ())
  else
    ([Ev.mountCall "proc" "/proc" "proc"], Except.error "mount failed")

/-- fn unmount_proc (lines 122-130): umount /proc, panicking on failure. -/
def unmount_proc (e : Env) : List Ev × Except String Unit :=
  if e.umountOk then
    ([Ev.umountCall "/proc"], Except.ok ())
  else
    ([Ev.umountCall "/proc"], Except.error "unmount failed")

/-- fn cg (lines 147-156): create the fixed cgroup directory, write the
fixed pid ceiling 20, enable notify_on_release, register the current
process; each step panics (expect) on failure. -/
def cg (e : Env) : List Ev × Except String Unit :=
  if e.mkdirOk then
    if e.writePidsMaxOk then
      if e.writeNotifyOk then
        if e.writeProcsOk then
          ([Ev.mkdirCall pidsDir,
            Ev.writePidsMax (pidsDir ++ "/pids.max") "20",
            Ev.writeNotify (pidsDir ++ "/notify_on_release") "1",
            Ev.writeProcs (pidsDir ++ "/cgroup.procs") (toString e.childPid)],
            Except.ok ())
        else
          ([Ev.mkdirCall pidsDir,
            Ev.writePidsMax (pidsDir ++ "/pids.max") "20",
            Ev.writeNotify (pidsDir ++ "/notify_on_release") "1",
            Ev.writeProcs (pidsDir ++ "/cgroup.procs") (toString e.childPid)],
            Except.error "Failed to write cgroup.procs")
      else
        ([Ev.mkdirCall pidsDir,
          Ev.writePidsMax (pidsDir ++ "/pids.max") "20",
          Ev.writeNotify (pidsDir ++ "/notify_on_release") "1"],
          Except.error "Failed to write notify_on_release")
    else
      ([Ev.mkdirCall pidsDir,
        Ev.writePidsMax (pidsDir ++ "/pids.max") "20"],
        Except.error "Failed to write pids.max")
  else
    ([Ev.mkdirCall pidsDir], Except.error "Failed to create cgroup dir")

/-- fn run_cmd (lines 93-101, renamed because the source spelling is not
available here): Command::new of args[0] (a Rust index panic on an empty
vector), run it, panic (expect) when it cannot be located or started,
and otherwise return its exit code, or 1 when it has none. -/
def runCmd (e : Env) (args : List String) : List Ev × Except String Int :=
  match args with
  | [] => ([], Except.error oobMsg)
  | prog :: rest =>
    match e.cmdStatus with
    | none => ([Ev.execTarget prog rest], Except.error "failed to run command")
    | some none => ([Ev.execTarget prog rest], Except.ok 1)
    | some (some c) => ([Ev.execTarget prog rest], Except.ok c)

/-- fn child_func (lines 67-82): the strict bootstrap sequence.  Each
step is run in source order; a panic (error) in a step aborts the child
there, a normal return continues with the next step.  The value of the
ok outcome is the captured exit status of the target command, which is
the return value of child_func and hence the exit code of the child
process. -/
def child_func (e : Env) (args : List String) : List Ev × Except String Int :=
  match ensure_debootstrap e with
  | (t1, Except.error m) => (t1, Except.error m)
  | (t1, Except.ok ()) =>
  match bootstrap_rootfs e rootPath with
  | (t2, Except.error m) => (t1 ++ t2, Except.error m)
  | (t2, Except.ok ()) =>
  match set_hostname e hostname with
  | (t3, Except.error m) => (t1 ++ t2 ++ t3, Except.error m)
  | (t3, Except.ok ()) =>
  match chroot e rootPath with
  | (t4, Except.error m) => (t1 ++ t2 ++ t3 ++ t4, Except.error m)
  | (t4, Except.ok ()) =>
  match mount_proc e with
  | (t5, Except.error m) => (t1 ++ t2 ++ t3 ++ t4 ++ t5, Except.error m)
  | (t5, Except.ok ()) =>
  match cg e with
  | (t6, Except.error m) => (t1 ++ t2 ++ t3 ++ t4 ++ t5 ++ t6, Except.error m)
  | (t6, Except.ok ()) =>
  match runCmd e args with
  | (t7, Except.error m) => (t1 ++ t2 ++ t3 ++ t4 ++ t5 ++ t6 ++ t7, Except.error m)
  | (t7, Except.ok status) =>
  match unmount_proc e with
  | (t8, Except.error m) => (t1 ++ t2 ++ t3 ++ t4 ++ t5 ++ t6 ++ t7 ++ t8, Except.error m)
  | (t8, Except.ok ()) => (t1 ++ t2 ++ t3 ++ t4 ++ t5 ++ t6 ++ t7 ++ t8, Except.ok status)

/-- How a process run ends: a normal exit with a code, or a Rust panic
(which never yields a chosen exit code). -/
inductive ExitStatus where
  | code (c : Int)
  | panicked (msg : String)
deriving DecidableEq

/-- fn run, parent side (lines 33-65): print, allocate the stack, clone;
exit(1) when clone fails; panic when unshare fails; then call waitpid,
whose return value the source discards, and return, which ends main with
exit status 0.  The waited-for child status is captured into a local and
never read. -/
def run (e : Env) (_args : List String) : ExitStatus :=
  if e.cloneOk then
    if e.unshareOk then
      let _ := e.waitpidRet
      ExitStatus.code 0
    else ExitStatus.panicked "unshare failed"
  else ExitStatus.code 1

/-- fn main (lines 8-26) together with the launch it triggers: the
parent exit status, and the child bootstrap run when clone succeeded
(`none` when no child was created).  With no subcommand, help is printed
and main returns 0 (an empty argv would make help index argv[0], a Rust
index panic); with a subcommand other than run, an error is printed and
main returns 0; with run and no command, exit(1); otherwise run is
called on argv and the child receives argv without its first two
elements. -/
def main (e : Env) (argv : List String) : ExitStatus × Option (List Ev × Except String Int) :=
  match argv with
  | [] => (ExitStatus.panicked oobMsg, none)
  | _exe :: [] => (ExitStatus.code 0, none)
  | exe :: sub :: rest =>
    if sub = "run" then
      if rest = [] then (ExitStatus.code 1, none)
      else (run e (exe :: sub :: rest),
            if e.cloneOk then some (child_func e rest) else none)
    else (ExitStatus.code 0, none)

/-- The result of the child bootstrap as a function of the results of
its eight steps alone, in source order (the traces do not influence it). -/
def seqResult (r1 r2 r3 r4 r5 r6 : Except String Unit) (r7 : Except String Int)
    (r8 : Except String Unit) : Except String Int :=
  match r1 with
  | Except.error m => Except.error m
  | Except.ok () =>
  match r2 with
  | Except.error m => Except.error m
  | Except.ok () =>
  match r3 with
  | Except.error m => Except.error m
  | Except.ok () =>
  match r4 with
  | Except.error m => Except.error m
  | Except.ok () =>
  match r5 with
  | Except.error m => Except.error m
  | Except.ok () =>
  match r6 with
  | Except.error m => Except.error m
  | Except.ok () =>
  match r7 with
  | Except.error m => Except.error m
  | Except.ok status =>
  match r8 with
  | Except.error m => Except.error m
  | Except.ok () => Except.ok status

/-- Recognizes an invocation of the provisioning tool. -/
def isDebootstrapRun : Ev → Bool
  | .debootstrapRun _ _ => true
  | _ => false

/-- Number of provisioning-tool invocations in a trace. -/
def debootstrapCount (t : List Ev) : Nat := t.countP isDebootstrapRun

/-- Provisioning-tool invocations over a sequence of launches against
one shared world.  The Bool threads whether the root path exists; each
launch sees it as its Path::exists outcome, and afterwards the path
exists when it already did or the launch provisioned it successfully
(the provisioning tool populates the tree at the path, per the spec). -/
def launchesCount : Bool → List Env → Nat
  | _, [] => 0
  | ex, e :: rest =>
      debootstrapCount (bootstrap_rootfs { e with pathExists := ex } rootPath).1 +
        launchesCount (ex || (e.debootstrapStatus == some true)) rest

/-- A trace follows the bootstrap order: every pair of actions, in trace
order, has strictly increasing rank. -/
def stepOrdered (t : List Ev) : Prop :=
  List.Pairwise (fun a b => rank a < rank b) t

/-- A trace follows the bootstrap order and all its actions have ranks
inside the given window. -/
def Spanned (lo hi : Nat) (t : List Ev) : Prop :=
  stepOrdered t ∧ ∀ x ∈ t, lo ≤ rank x ∧ rank x ≤ hi

/-- A launch environment in which every outside call succeeds and the
target command exits with code 0. -/
def allOkEnv : Env :=
  { pathExists := true
    whichOk := true
    aptInstallSpawnOk := true
    debootstrapStatus := some true
    sethostnameOk := true
    chrootOk := true
    chdirOk := true
    mountOk := true
    umountOk := true
    mkdirOk := true
    writePidsMaxOk := true
    writeNotifyOk := true
    writeProcsOk := true
    cmdStatus := some (some 0)
    aarch64 := false
    childPid := 1
    cloneOk := true
    unshareOk := true
    waitpidRet := 0 }

/-! Trace-window infrastructure. -/

theorem spanned_append {lo₁ hi₁ lo₂ hi₂ : Nat} {t₁ t₂ : List Ev}
    (h₁ : Spanned lo₁ hi₁ t₁) (h₂ : Spanned lo₂ hi₂ t₂)
    (hlt : hi₁ < lo₂) (hlo : lo₁ ≤ lo₂) (hhi : hi₁ ≤ hi₂) :
    Spanned lo₁ hi₂ (t₁ ++ t₂) := by
  constructor
  · exact List.pairwise_append.mpr
      ⟨h₁.1, h₂.1, fun a ha b hb =>
        lt_of_le_of_lt (h₁.2 a ha).2 (lt_of_lt_of_le hlt (h₂.2 b hb).1)⟩
  · intro x hx
    rcases List.mem_append.mp hx with h | h
    · exact ⟨(h₁.2 x h).1, le_trans (h₁.2 x h).2 hhi⟩
    · exact ⟨le_trans hlo (h₂.2 x h).1, (h₂.2 x h).2⟩

theorem not_mem_span_hi {lo hi : Nat} {t : List Ev} (h : Spanned lo hi t)
    {x : Ev} (hx : hi < rank x) : x ∉ t :=
  fun hm => absurd (h.2 x hm).2 (by omega)

theorem not_mem_span_lo {lo hi : Nat} {t : List Ev} (h : Spanned lo hi t)
    {x : Ev} (hx : rank x < lo) : x ∉ t :=
  fun hm => absurd (h.2 x hm).1 (by omega)

/-! Per-component facts. -/

theorem ensure_spanned (e : Env) : Spanned 0 2 (ensure_debootstrap e).1 := by
  unfold ensure_debootstrap
  split
  · simp [Spanned, stepOrdered, rank]
  · split <;> simp [Spanned, stepOrdered, rank]

theorem ensure_mem_which (e : Env) : Ev.whichDebootstrap ∈ (ensure_debootstrap e).1 := by
  unfold ensure_debootstrap
  split
  · simp
  · split <;> simp

theorem ensure_error_msg (e : Env) {m : String}
    (h : (ensure_debootstrap e).2 = Except.error m) : m = "failed to install debootstrap" := by
  unfold ensure_debootstrap at h
  split at h
  · simp at h
  · split at h <;> simp_all

theorem bootstrap_spanned (e : Env) (p : String) : Spanned 3 3 (bootstrap_rootfs e p).1 := by
  unfold bootstrap_rootfs
  split
  · simp [Spanned, stepOrdered]
  · split <;> simp [Spanned, stepOrdered, rank]

theorem bootstrap_exists (e : Env) (p : String) (h : e.pathExists = true) :
    bootstrap_rootfs e p = ([], Except.ok ()) := by
  simp [bootstrap_rootfs, h]

theorem bootstrap_ok_shape (e : Env) (p : String)
    (h : (bootstrap_rootfs e p).2 = Except.ok ()) (hne : e.pathExists = false) :
    (bootstrap_rootfs e p).1 = [Ev.debootstrapRun p (mirror e)] := by
  unfold bootstrap_rootfs at h ⊢
  rw [hne] at h ⊢
  simp only [Bool.false_eq_true, if_false] at h ⊢
  split at h <;> simp_all

theorem bootstrap_error_msg (e : Env) (p : String) {m : String}
    (h : (bootstrap_rootfs e p).2 = Except.error m) :
    m = "failed to run debootstrap" ∨ m = "debootstrap failed" := by
  unfold bootstrap_rootfs at h
  split at h
  · simp at h
  · split at h <;> simp_all

theorem bootstrap_invoked (e : Env) (p : String) (h : e.pathExists = false)
    (hd : e.debootstrapStatus = some true) :
    bootstrap_rootfs e p = ([Ev.debootstrapRun p (mirror e)], Except.ok ()) := by
  simp [bootstrap_rootfs, h, hd]

theorem set_hostname_snd (e : Env) (n : String) :
    (set_hostname e n).2 = Except.ok () := by
  unfold set_hostname
  split <;> rfl

theorem set_hostname_shape (e : Env) (n : String) :
    set_hostname e n = ((set_hostname e n).1, Except.ok ()) := by
  unfold set_hostname
  split <;> rfl

theorem hostname_spanned (e : Env) (n : String) : Spanned 4 5 (set_hostname e n).1 := by
  unfold set_hostname
  split <;> simp [Spanned, stepOrdered, rank]

theorem hostname_mem (e : Env) (n : String) :
    Ev.sethostnameCall n ∈ (set_hostname e n).1 := by
  unfold set_hostname
  split <;> simp

theorem set_hostname_fail_shape (e : Env) (n : String) (h : e.sethostnameOk = false) :
    set_hostname e n = ([Ev.sethostnameCall n, Ev.logErr "Failed to set hostname"],
      Except.ok ()) := by
  simp [set_hostname, h]

theorem chroot_spanned (e : Env) (p : String) : Spanned 6 7 (chroot e p).1 := by
  unfold chroot
  split
  · split <;> simp [Spanned, stepOrdered, rank]
  · simp [Spanned, stepOrdered, rank]

theorem chroot_ok_trace (e : Env) (p : String) (h : e.chrootOk = true) :
    (chroot e p).1 = [Ev.chrootCall p, Ev.chdirCall "/"] := by
  rcases hd : e.chdirOk <;> simp [chroot, h, hd]

theorem chroot_fail (e : Env) (p : String) (h : e.chrootOk = false) :
    chroot e p = ([Ev.chrootCall p], Except.error "chroot failed") := by
  simp [chroot, h]

theorem chroot_ok_iff (e : Env) (p : String) :
    (chroot e p).2 = Except.ok () ↔ (e.chrootOk = true ∧ e.chdirOk = true) := by
  unfold chroot
  rcases hc : e.chrootOk <;> rcases hd : e.chdirOk <;> simp

theorem chroot_error_msg (e : Env) (p : String) {m : String}
    (h : (chroot e p).2 = Except.error m) :
    m = "chroot failed" ∨ m = "chdir failed" := by
  unfold chroot at h
  split at h
  · split at h <;> simp_all
  · simp_all

theorem mount_spanned (e : Env) : Spanned 8 8 (mount_proc e).1 := by
  unfold mount_proc
  split <;> simp [Spanned, stepOrdered, rank]

theorem mount_trace (e : Env) : (mount_proc e).1 = [Ev.mountCall "proc" "/proc" "proc"] := by
  unfold mount_proc
  split <;> rfl

theorem mount_ok_iff (e : Env) : (mount_proc e).2 = Except.ok () ↔ e.mountOk = true := by
  unfold mount_proc
  rcases h : e.mountOk <;> simp

theorem mount_error_msg (e : Env) {m : String}
    (h : (mount_proc e).2 = Except.error m) : m = "mount failed" := by
  unfold mount_proc at h
  split at h <;> simp_all

theorem unmount_spanned (e : Env) : Spanned 14 14 (unmount_proc e).1 := by
  unfold unmount_proc
  split <;> simp [Spanned, stepOrdered, rank]

theorem unmount_ok_iff (e : Env) : (unmount_proc e).2 = Except.ok () ↔ e.umountOk = true := by
  unfold unmount_proc
  rcases h : e.umountOk <;> simp

theorem unmount_fail (e : Env) (h : e.umountOk = false) :
    unmount_proc e = ([Ev.umountCall "/proc"], Except.error "unmount failed") := by
  simp [unmount_proc, h]

theorem unmount_error_msg (e : Env) {m : String}
    (h : (unmount_proc e).2 = Except.error m) : m = "unmount failed" := by
  unfold unmount_proc at h
  split at h <;> simp_all

theorem cg_spanned (e : Env) : Spanned 9 12 (cg e).1 := by
  unfold cg
  split
  · split
    · split
      · split <;> simp [Spanned, stepOrdered, rank]
      · simp [Spanned, stepOrdered, rank]
    · simp [Spanned, stepOrdered, rank]
  · simp [Spanned, stepOrdered, rank]

theorem cg_ok_iff (e : Env) :
    (cg e).2 = Except.ok () ↔
      (e.mkdirOk = true ∧ e.writePidsMaxOk = true ∧
       e.writeNotifyOk = true ∧ e.writeProcsOk = true) := by
  unfold cg
  rcases h1 : e.mkdirOk <;> rcases h2 : e.writePidsMaxOk <;>
    rcases h3 : e.writeNotifyOk <;> rcases h4 : e.writeProcsOk <;> simp

theorem cg_ok_shape (e : Env) (h : (cg e).2 = Except.ok ()) :
    cg e = ([Ev.mkdirCall pidsDir,
             Ev.writePidsMax (pidsDir ++ "/pids.max") "20",
             Ev.writeNotify (pidsDir ++ "/notify_on_release") "1",
             Ev.writeProcs (pidsDir ++ "/cgroup.procs") (toString e.childPid)],
            Except.ok ()) := by
  rcases (cg_ok_iff e).mp h with ⟨h1, h2, h3, h4⟩
  simp [cg, h1, h2, h3, h4]

theorem cg_error_msg (e : Env) {m : String} (h : (cg e).2 = Except.error m) :
    m = "Failed to create cgroup dir" ∨ m = "Failed to write pids.max" ∨
    m = "Failed to write notify_on_release" ∨ m = "Failed to write cgroup.procs" := by
  unfold cg at h
  split at h
  · split at h
    · split at h
      · split at h <;> simp_all
      · simp_all
    · simp_all
  · simp_all

theorem runCmd_spanned (e : Env) (args : List String) : Spanned 13 13 (runCmd e args).1 := by
  unfold runCmd
  rcases args with _ | ⟨p, rest⟩
  · simp [Spanned, stepOrdered]
  · rcases h : e.cmdStatus with _ | ⟨_ | c⟩ <;> simp [Spanned, stepOrdered, rank]

theorem runCmd_ok_shape (e : Env) (args : List String) {c : Int}
    (h : (runCmd e args).2 = Except.ok c) :
    ∃ p rest, args = p :: rest ∧ (runCmd e args).1 = [Ev.execTarget p rest] := by
  unfold runCmd at h ⊢
  rcases args with _ | ⟨p, rest⟩
  · simp at h
  · exact ⟨p, rest, rfl, by rcases hc : e.cmdStatus with _ | ⟨_ | c⟩ <;> simp [hc]⟩

theorem runCmd_spawn_fail (e : Env) (p : String) (rest : List String)
    (h : e.cmdStatus = none) :
    runCmd e (p :: rest) = ([Ev.execTarget p rest], Except.error "failed to run command") := by
  simp [runCmd, h]

theorem runCmd_no_code (e : Env) (p : String) (rest : List String)
    (h : e.cmdStatus = some none) :
    runCmd e (p :: rest) = ([Ev.execTarget p rest], Except.ok 1) := by
  simp [runCmd, h]

theorem runCmd_code (e : Env) (p : String) (rest : List String) (c : Int)
    (h : e.cmdStatus = some (some c)) :
    runCmd e (p :: rest) = ([Ev.execTarget p rest], Except.ok c) := by
  simp [runCmd, h]

theorem runCmd_error_msg (e : Env) (args : List String) {m : String}
    (hne : args ≠ []) (h : (runCmd e args).2 = Except.error m) :
    m = "failed to run command" := by
  unfold runCmd at h
  rcases args with _ | ⟨p, rest⟩
  · exact absurd rfl hne
  · rcases hc : e.cmdStatus with _ | ⟨_ | c⟩ <;> simp_all

/-! Child-level facts. -/

theorem child_snd (e : Env) (args : List String) :
    (child_func e args).2 =
      seqResult (ensure_debootstrap e).2 (bootstrap_rootfs e rootPath).2
        (set_hostname e hostname).2 (chroot e rootPath).2 (mount_proc e).2
        (cg e).2 (runCmd e args).2 (unmount_proc e).2 := by
  unfold child_func
  repeat' split
  all_goals simp_all [seqResult]

theorem seqResult_ok_iff {r1 r2 r3 r4 r5 r6 : Except String Unit}
    {r7 : Except String Int} {r8 : Except String Unit} {c : Int} :
    seqResult r1 r2 r3 r4 r5 r6 r7 r8 = Except.ok c ↔
      (r1 = Except.ok () ∧ r2 = Except.ok () ∧ r3 = Except.ok () ∧
       r4 = Except.ok () ∧ r5 = Except.ok () ∧ r6 = Except.ok () ∧
       r7 = Except.ok c ∧ r8 = Except.ok ()) := by
  rcases r1 with m1 | ⟨⟩ <;> rcases r2 with m2 | ⟨⟩ <;> rcases r3 with m3 | ⟨⟩ <;>
    rcases r4 with m4 | ⟨⟩ <;> rcases r5 with m5 | ⟨⟩ <;> rcases r6 with m6 | ⟨⟩ <;>
    rcases r7 with m7 | s <;> rcases r8 with m8 | ⟨⟩ <;> simp [seqResult]

theorem seqResult_error {r1 r2 r3 r4 r5 r6 : Except String Unit}
    {r7 : Except String Int} {r8 : Except String Unit} {m : String}
    (h : seqResult r1 r2 r3 r4 r5 r6 r7 r8 = Except.error m) :
    r1 = Except.error m ∨ r2 = Except.error m ∨ r3 = Except.error m ∨
    r4 = Except.error m ∨ r5 = Except.error m ∨ r6 = Except.error m ∨
    r7 = Except.error m ∨ r8 = Except.error m := by
  rcases r1 with m1 | ⟨⟩ <;> rcases r2 with m2 | ⟨⟩ <;> rcases r3 with m3 | ⟨⟩ <;>
    rcases r4 with m4 | ⟨⟩ <;> rcases r5 with m5 | ⟨⟩ <;> rcases r6 with m6 | ⟨⟩ <;>
    rcases r7 with m7 | s <;> rcases r8 with m8 | ⟨⟩ <;> simp_all [seqResult]

theorem child_snd_ok_iff (e : Env) (args : List String) (c : Int) :
    (child_func e args).2 = Except.ok c ↔
      ((ensure_debootstrap e).2 = Except.ok () ∧
       (bootstrap_rootfs e rootPath).2 = Except.ok () ∧
       (chroot e rootPath).2 = Except.ok () ∧
       (mount_proc e).2 = Except.ok () ∧
       (cg e).2 = Except.ok () ∧
       (runCmd e args).2 = Except.ok c ∧
       (unmount_proc e).2 = Except.ok ()) := by
  rw [child_snd, seqResult_ok_iff]
  simp [set_hostname_snd]

/-- Every action of the child trace was performed by one of the eight
steps. -/
theorem mem_child_component (e : Env) (args : List String) {x : Ev}
    (hx : x ∈ (child_func e args).1) :
    x ∈ (ensure_debootstrap e).1 ∨ x ∈ (bootstrap_rootfs e rootPath).1 ∨
    x ∈ (set_hostname e hostname).1 ∨ x ∈ (chroot e rootPath).1 ∨
    x ∈ (mount_proc e).1 ∨ x ∈ (cg e).1 ∨
    x ∈ (runCmd e args).1 ∨ x ∈ (unmount_proc e).1 := by
  unfold child_func at hx
  repeat' split at hx
  all_goals simp_all [List.mem_append]
  all_goals tauto

theorem spanned_mono {lo hi lo' hi' : Nat} {t : List Ev} (h : Spanned lo hi t)
    (h1 : lo' ≤ lo) (h2 : hi ≤ hi') : Spanned lo' hi' t :=
  ⟨h.1, fun x hx => ⟨le_trans h1 (h.2 x hx).1, le_trans (h.2 x hx).2 h2⟩⟩

/-- The whole child trace follows the bootstrap order. -/
theorem child_spanned (e : Env) (args : List String) :
    Spanned 0 14 (child_func e args).1 := by
  have s1 := ensure_spanned e
  have s2 := bootstrap_spanned e rootPath
  have s3 := hostname_spanned e hostname
  have s4 := chroot_spanned e rootPath
  have s5 := mount_spanned e
  have s6 := cg_spanned e
  have s7 := runCmd_spanned e args
  have s8 := unmount_spanned e
  unfold child_func
  rcases h1 : ensure_debootstrap e with ⟨t1, r1⟩
  rw [h1] at s1
  rcases r1 with m1 | ⟨⟩
  · exact spanned_mono s1 (by omega) (by omega)
  rcases h2 : bootstrap_rootfs e rootPath with ⟨t2, r2⟩
  rw [h2] at s2
  rcases r2 with m2 | ⟨⟩
  · exact spanned_mono (spanned_append s1 s2 (by omega) (by omega) (by omega)) (by omega) (by omega)
  rcases h3 : set_hostname e hostname with ⟨t3, r3⟩
  rw [h3] at s3
  rcases r3 with m3 | ⟨⟩
  · exact spanned_mono (spanned_append (spanned_append s1 s2 (by omega) (by omega) (by omega)) s3 (by omega) (by omega) (by omega)) (by omega) (by omega)
  rcases h4 : chroot e rootPath with ⟨t4, r4⟩
  rw [h4] at s4
  rcases r4 with m4 | ⟨⟩
  · exact spanned_mono (spanned_append (spanned_append (spanned_append s1 s2 (by omega) (by omega) (by omega)) s3 (by omega) (by omega) (by omega)) s4 (by omega) (by omega) (by omega)) (by omega) (by omega)
  rcases h5 : mount_proc e with ⟨t5, r5⟩
  rw [h5] at s5
  rcases r5 with m5 | ⟨⟩
  · exact spanned_mono (spanned_append (spanned_append (spanned_append (spanned_append s1 s2 (by omega) (by omega) (by omega)) s3 (by omega) (by omega) (by omega)) s4 (by omega) (by omega) (by omega)) s5 (by omega) (by omega) (by omega)) (by omega) (by omega)
  rcases h6 : cg e with ⟨t6, r6⟩
  rw [h6] at s6
  rcases r6 with m6 | ⟨⟩
  · exact spanned_mono (spanned_append (spanned_append (spanned_append (spanned_append (spanned_append s1 s2 (by omega) (by omega) (by omega)) s3 (by omega) (by omega) (by omega)) s4 (by omega) (by omega) (by omega)) s5 (by omega) (by omega) (by omega)) s6 (by omega) (by omega) (by omega)) (by omega) (by omega)
  rcases h7 : runCmd e args with ⟨t7, r7⟩
  rw [h7] at s7
  rcases r7 with m7 | s
  · exact spanned_mono (spanned_append (spanned_append (spanned_append (spanned_append (spanned_append (spanned_append s1 s2 (by omega) (by omega) (by omega)) s3 (by omega) (by omega) (by omega)) s4 (by omega) (by omega) (by omega)) s5 (by omega) (by omega) (by omega)) s6 (by omega) (by omega) (by omega)) s7 (by omega) (by omega) (by omega)) (by omega) (by omega)
  rcases h8 : unmount_proc e with ⟨t8, r8⟩
  rw [h8] at s8
  rcases r8 with m8 | ⟨⟩ <;>
    exact spanned_mono (spanned_append (spanned_append (spanned_append (spanned_append (spanned_append (spanned_append (spanned_append s1 s2 (by omega) (by omega) (by omega)) s3 (by omega) (by omega) (by omega)) s4 (by omega) (by omega) (by omega)) s5 (by omega) (by omega) (by omega)) s6 (by omega) (by omega) (by omega)) s7 (by omega) (by omega) (by omega)) s8 (by omega) (by omega) (by omega)) (by omega) (by omega)

/-- When the child trace holds an action of the execution or teardown
stage (rank at least 13), every earlier step completed: the mandatory
setup steps all returned ok and their traces are part of the child
trace; moreover the action lies in the executor trace, or the executor
itself returned ok with its trace part of the child trace. -/
theorem child_reach (e : Env) (args : List String) {x : Ev}
    (hx : x ∈ (child_func e args).1) (hr : 13 ≤ rank x) :
    (ensure_debootstrap e).1 ⊆ (child_func e args).1 ∧
    (bootstrap_rootfs e rootPath).1 ⊆ (child_func e args).1 ∧
    (set_hostname e hostname).1 ⊆ (child_func e args).1 ∧
    (chroot e rootPath).1 ⊆ (child_func e args).1 ∧
    (mount_proc e).1 ⊆ (child_func e args).1 ∧
    (cg e).1 ⊆ (child_func e args).1 ∧
    (ensure_debootstrap e).2 = Except.ok () ∧
    (bootstrap_rootfs e rootPath).2 = Except.ok () ∧
    (chroot e rootPath).2 = Except.ok () ∧
    (mount_proc e).2 = Except.ok () ∧
    (cg e).2 = Except.ok () ∧
    (x ∈ (runCmd e args).1 ∨
      ∃ c, (runCmd e args).2 = Except.ok c ∧
        (runCmd e args).1 ⊆ (child_func e args).1) := by
  have s1 := ensure_spanned e
  have s2 := bootstrap_spanned e rootPath
  have s3 := hostname_spanned e hostname
  have s4 := chroot_spanned e rootPath
  have s5 := mount_spanned e
  have s6 := cg_spanned e
  unfold child_func at hx ⊢
  rcases h1 : ensure_debootstrap e with ⟨t1, r1⟩
  rw [h1] at s1 hx
  rcases r1 with m1 | ⟨⟩
  · exact absurd hx (not_mem_span_hi s1 (by omega))
  rcases h2 : bootstrap_rootfs e rootPath with ⟨t2, r2⟩
  rw [h2] at s2 hx
  rcases r2 with m2 | ⟨⟩
  · exact absurd hx (not_mem_span_hi
      (spanned_append s1 s2 (by omega) (by omega) (by omega)) (by omega))
  rcases h3 : set_hostname e hostname with ⟨t3, r3⟩
  rw [h3] at s3 hx
  rcases r3 with m3 | ⟨⟩
  · exact absurd hx (not_mem_span_hi
      (spanned_append (spanned_append s1 s2 (by omega) (by omega) (by omega)) s3
        (by omega) (by omega) (by omega)) (by omega))
  rcases h4 : chroot e rootPath with ⟨t4, r4⟩
  rw [h4] at s4 hx
  rcases r4 with m4 | ⟨⟩
  · exact absurd hx (not_mem_span_hi
      (spanned_append (spanned_append (spanned_append s1 s2 (by omega) (by omega)
        (by omega)) s3 (by omega) (by omega) (by omega)) s4 (by omega) (by omega)
        (by omega)) (by omega))
  rcases h5 : mount_proc e with ⟨t5, r5⟩
  rw [h5] at s5 hx
  rcases r5 with m5 | ⟨⟩
  · exact absurd hx (not_mem_span_hi
      (spanned_append (spanned_append (spanned_append (spanned_append s1 s2 (by omega)
        (by omega) (by omega)) s3 (by omega) (by omega) (by omega)) s4 (by omega)
        (by omega) (by omega)) s5 (by omega) (by omega) (by omega)) (by omega))
  rcases h6 : cg e with ⟨t6, r6⟩
  rw [h6] at s6 hx
  rcases r6 with m6 | ⟨⟩
  · exact absurd hx (not_mem_span_hi
      (spanned_append (spanned_append (spanned_append (spanned_append (spanned_append
        s1 s2 (by omega) (by omega) (by omega)) s3 (by omega) (by omega) (by omega))
        s4 (by omega) (by omega) (by omega)) s5 (by omega) (by omega) (by omega)) s6
        (by omega) (by omega) (by omega)) (by omega))
  rcases h7 : runCmd e args with ⟨t7, r7⟩
  rw [h7] at hx
  rcases r7 with m7 | s
  · refine ⟨?_, ?_, ?_, ?_, ?_, ?_, rfl, rfl, rfl, rfl, rfl, ?_⟩
    · intro y hy; simp only [List.mem_append]; tauto
    · intro y hy; simp only [List.mem_append]; tauto
    · intro y hy; simp only [List.mem_append]; tauto
    · intro y hy; simp only [List.mem_append]; tauto
    · intro y hy; simp only [List.mem_append]; tauto
    · intro y hy; simp only [List.mem_append]; tauto
    · have hx' : x ∈ t1 ++ t2 ++ t3 ++ t4 ++ t5 ++ t6 ++ t7 := hx
      simp only [List.mem_append] at hx'
      rcases hx' with ((((((h | h) | h) | h) | h) | h) | h)
      · exact absurd (s1.2 x h).2 (by omega)
      · exact absurd (s2.2 x h).2 (by omega)
      · exact absurd (s3.2 x h).2 (by omega)
      · exact absurd (s4.2 x h).2 (by omega)
      · exact absurd (s5.2 x h).2 (by omega)
      · exact absurd (s6.2 x h).2 (by omega)
      · exact Or.inl h
  rcases h8 : unmount_proc e with ⟨t8, r8⟩
  rcases r8 with m8 | ⟨⟩ <;>
    refine ⟨?_, ?_, ?_, ?_, ?_, ?_, rfl, rfl, rfl, rfl, rfl,
      Or.inr ⟨s, rfl, ?_⟩⟩ <;>
    · intro y hy; simp only [List.mem_append]; tauto

/-! Claim theorems. -/

/-- Claim C4 (confirmed): the child bootstrap is one strict sequential
order.  Its trace is strictly increasing in the bootstrap step order
(ensure the provisioning tool, provision the root tree if absent, set
hostname, switch root, mount the process-information filesystem,
configure the resource limiter, run the target command, unmount), so
every setup action in the trace comes before every target-command
execution and the unmount comes after it; whenever the target command
is executed, every mandatory setup action is in the trace (and the
provisioning invocation is too when the root path was absent); and the
unmount only ever happens after the target command was executed. -/
theorem c4_bootstrap_order (e : Env) (args : List String) :
    stepOrdered (child_func e args).1 ∧
    (∀ p rest, Ev.execTarget p rest ∈ (child_func e args).1 →
      Ev.whichDebootstrap ∈ (child_func e args).1 ∧
      (e.pathExists = false → Ev.debootstrapRun rootPath (mirror e) ∈ (child_func e args).1) ∧
      Ev.sethostnameCall hostname ∈ (child_func e args).1 ∧
      Ev.chrootCall rootPath ∈ (child_func e args).1 ∧
      Ev.chdirCall "/" ∈ (child_func e args).1 ∧
      Ev.mountCall "proc" "/proc" "proc" ∈ (child_func e args).1 ∧
      Ev.mkdirCall pidsDir ∈ (child_func e args).1 ∧
      Ev.writePidsMax (pidsDir ++ "/pids.max") "20" ∈ (child_func e args).1 ∧
      Ev.writeNotify (pidsDir ++ "/notify_on_release") "1" ∈ (child_func e args).1 ∧
      Ev.writeProcs (pidsDir ++ "/cgroup.procs") (toString e.childPid)
        ∈ (child_func e args).1) ∧
    (Ev.umountCall "/proc" ∈ (child_func e args).1 →
      ∃ p rest, Ev.execTarget p rest ∈ (child_func e args).1) := by
  refine ⟨(child_spanned e args).1, ?_, ?_⟩
  · intro p rest hmem
    have hr : 13 ≤ rank (Ev.execTarget p rest) := by simp [rank]
    obtain ⟨u1, u2, u3, u4, u5, u6, _, o2, o4, o5, o6, _⟩ := child_reach e args hmem hr
    have hc := (chroot_ok_iff e rootPath).mp o4
    refine ⟨u1 (ensure_mem_which e), ?_, u3 (hostname_mem e hostname), ?_, ?_, ?_, ?_, ?_,
      ?_, ?_⟩
    · intro hpe
      exact u2 (by rw [bootstrap_ok_shape e rootPath o2 hpe]; simp)
    · exact u4 (by rw [chroot_ok_trace e rootPath hc.1]; simp)
    · exact u4 (by rw [chroot_ok_trace e rootPath hc.1]; simp)
    · exact u5 (by rw [mount_trace e]; simp)
    · exact u6 (by rw [cg_ok_shape e o6]; simp)
    · exact u6 (by rw [cg_ok_shape e o6]; simp)
    · exact u6 (by rw [cg_ok_shape e o6]; simp)
    · exact u6 (by rw [cg_ok_shape e o6]; simp)
  · intro hu
    have hr : 13 ≤ rank (Ev.umountCall "/proc") := by simp [rank]
    obtain ⟨_, _, _, _, _, _, _, _, _, _, _, hlast⟩ := child_reach e args hu hr
    rcases hlast with hmem | ⟨c, hok, hsub⟩
    · exact absurd ((runCmd_spanned e args).2 _ hmem).2 (by simp [rank])
    · obtain ⟨p, rest, _, htr⟩ := runCmd_ok_shape e args hok
      exact ⟨p, rest, hsub (by rw [htr]; simp)⟩

/-- Witness for C4 at a concrete launch in which every call succeeds. -/
theorem c4_witness :
    stepOrdered (child_func allOkEnv ["/bin/sh"]).1 ∧
    Ev.chrootCall rootPath ∈ (child_func allOkEnv ["/bin/sh"]).1 :=
  ⟨(c4_bootstrap_order allOkEnv ["/bin/sh"]).1,
   ((c4_bootstrap_order allOkEnv ["/bin/sh"]).2.1 "/bin/sh" [] (by decide)).2.2.2.1⟩

/-- Claim C6 (confirmed): the Filesystem Root Switch performs the root
redirect and immediately afterwards the working-directory change to
the root, for any path; when the root-switch primitive fails, the
child aborts at once with the chroot panic, the working-directory
change is not attempted there, and no child execution ever performs a
working-directory change or completes the bootstrap. -/
theorem c6_chroot_contract (e : Env) (path : String) :
    (e.chrootOk = true →
      (chroot e path).1 = [Ev.chrootCall path, Ev.chdirCall "/"] ∧
      ((chroot e path).2 = Except.ok () ↔ e.chdirOk = true)) ∧
    (e.chrootOk = false →
      chroot e path = ([Ev.chrootCall path], Except.error "chroot failed") ∧
      (∀ args c, (child_func e args).2 ≠ Except.ok c) ∧
      (∀ args, Ev.chdirCall "/" ∉ (child_func e args).1)) := by
  constructor
  · intro h
    refine ⟨chroot_ok_trace e path h, ?_⟩
    rw [chroot_ok_iff e path]
    simp [h]
  · intro h
    refine ⟨chroot_fail e path h, ?_, ?_⟩
    · intro args c hok
      have := ((child_snd_ok_iff e args c).mp hok).2.2.1
      rw [(chroot_ok_iff e rootPath).mp this |>.1] at h
      exact Bool.noConfusion h
    · intro args hmem
      rcases mem_child_component e args hmem with hc | hc | hc | hc | hc | hc | hc | hc
      · exact absurd ((ensure_spanned e).2 _ hc).2 (by simp [rank])
      · exact absurd ((bootstrap_spanned e rootPath).2 _ hc).2 (by simp [rank])
      · exact absurd ((hostname_spanned e hostname).2 _ hc).2 (by simp [rank])
      · rw [chroot_fail e rootPath h] at hc
        simp at hc
      · exact absurd ((mount_spanned e).2 _ hc).1 (by simp [rank])
      · exact absurd ((cg_spanned e).2 _ hc).1 (by simp [rank])
      · exact absurd ((runCmd_spanned e args).2 _ hc).1 (by simp [rank])
      · exact absurd ((unmount_spanned e).2 _ hc).1 (by simp [rank])

/-- Witness for C6 at a concrete launch in which every call succeeds. -/
theorem c6_witness :
    (chroot allOkEnv rootPath).1 = [Ev.chrootCall rootPath, Ev.chdirCall "/"] :=
  ((c6_chroot_contract allOkEnv rootPath).1 rfl).1

/-- Claim C7 (confirmed): the Resource Limiter succeeds exactly when the
directory creation and the three writes succeed, in which case its
trace is the directory creation followed by the pid-ceiling write (20),
the release-notification write (1) and the registration of the current
process, in that order; any failure among the four steps is fatal for
the whole child bootstrap. -/
theorem c7_cg_contract (e : Env) :
    ((cg e).2 = Except.ok () ↔
      (e.mkdirOk = true ∧ e.writePidsMaxOk = true ∧ e.writeNotifyOk = true ∧
       e.writeProcsOk = true)) ∧
    ((cg e).2 = Except.ok () →
      cg e = ([Ev.mkdirCall pidsDir,
               Ev.writePidsMax (pidsDir ++ "/pids.max") "20",
               Ev.writeNotify (pidsDir ++ "/notify_on_release") "1",
               Ev.writeProcs (pidsDir ++ "/cgroup.procs") (toString e.childPid)],
              Except.ok ())) ∧
    ((cg e).2 ≠ Except.ok () → ∀ args c, (child_func e args).2 ≠ Except.ok c) := by
  refine ⟨cg_ok_iff e, cg_ok_shape e, ?_⟩
  intro hne args c hok
  exact hne ((child_snd_ok_iff e args c).mp hok).2.2.2.2.1

/-- Witness for C7 at a concrete launch in which every call succeeds. -/
theorem c7_witness :
    cg allOkEnv = ([Ev.mkdirCall pidsDir,
      Ev.writePidsMax (pidsDir ++ "/pids.max") "20",
      Ev.writeNotify (pidsDir ++ "/notify_on_release") "1",
      Ev.writeProcs (pidsDir ++ "/cgroup.procs") (toString allOkEnv.childPid)],
      Except.ok ()) :=
  (c7_cg_contract allOkEnv).2.1 rfl

/-- Claim C9 (confirmed): hostname setting is best-effort: it always
returns normally; on primitive failure it logs to the error stream
after the call and continues; and the result of the child bootstrap
never depends on the hostname outcome. -/
theorem c9_hostname_best_effort (e : Env) (n : String) :
    (set_hostname e n).2 = Except.ok () ∧
    (e.sethostnameOk = false →
      set_hostname e n = ([Ev.sethostnameCall n, Ev.logErr "Failed to set hostname"],
        Except.ok ())) ∧
    (∀ b args, (child_func { e with sethostnameOk := b } args).2 =
      (child_func e args).2) := by
  refine ⟨set_hostname_snd e n, set_hostname_fail_shape e n, ?_⟩
  intro b args
  have h1 : ensure_debootstrap { e with sethostnameOk := b } = ensure_debootstrap e := by
    simp [ensure_debootstrap]
  have h2 : bootstrap_rootfs { e with sethostnameOk := b } rootPath =
      bootstrap_rootfs e rootPath := by
    simp [bootstrap_rootfs, mirror]
  have h4 : chroot { e with sethostnameOk := b } rootPath = chroot e rootPath := by
    simp [chroot]
  have h5 : mount_proc { e with sethostnameOk := b } = mount_proc e := by
    simp [mount_proc]
  have h6 : cg { e with sethostnameOk := b } = cg e := by
    simp [cg]
  have h7 : runCmd { e with sethostnameOk := b } args = runCmd e args := by
    simp [runCmd]
  have h8 : unmount_proc { e with sethostnameOk := b } = unmount_proc e := by
    simp [unmount_proc]
  rw [child_snd, child_snd, h1, h2, h4, h5, h6, h7, h8,
    set_hostname_snd { e with sethostnameOk := b } hostname, set_hostname_snd e hostname]

/-- Witness for C9 at a concrete launch in which the hostname primitive
fails. -/
theorem c9_witness :
    set_hostname { allOkEnv with sethostnameOk := false } hostname =
      ([Ev.sethostnameCall hostname, Ev.logErr "Failed to set hostname"], Except.ok ()) :=
  (c9_hostname_best_effort { allOkEnv with sethostnameOk := false } hostname).2.1 rfl

theorem rank_of_debootstrapRun {x : Ev} (h : isDebootstrapRun x = true) : rank x = 3 := by
  cases x <;> simp_all [isDebootstrapRun, rank]

/-- Claim C8 (confirmed): provisioning is idempotent.  When the root
path already exists, bootstrap_rootfs returns at once with an empty
trace (the tree is untouched) and the whole child trace holds no
provisioning invocation; starting from a world in which the path
exists, any sequence of launches performs zero invocations; and from
any starting world, when invoked provisioning succeeds, a sequence of
launches performs at most one invocation. -/
theorem c8_provisioning_idempotent :
    (∀ e args, e.pathExists = true →
      bootstrap_rootfs e rootPath = ([], Except.ok ()) ∧
      debootstrapCount (child_func e args).1 = 0) ∧
    (∀ es, launchesCount true es = 0) ∧
    (∀ start es, (∀ e ∈ es, e.debootstrapStatus = some true) →
      launchesCount start es ≤ 1) := by
  have hzero : ∀ es, launchesCount true es = 0 := by
    intro es
    induction es with
    | nil => rfl
    | cons e rest ih =>
      unfold launchesCount
      rw [bootstrap_exists _ _ (by rfl)]
      simpa [debootstrapCount] using ih
  refine ⟨?_, hzero, ?_⟩
  · intro e args hpe
    refine ⟨bootstrap_exists e rootPath hpe, ?_⟩
    rw [debootstrapCount, List.countP_eq_zero]
    intro x hx hdx
    have hrank := rank_of_debootstrapRun hdx
    rcases mem_child_component e args hx with hc | hc | hc | hc | hc | hc | hc | hc
    · exact absurd ((ensure_spanned e).2 _ hc).2 (by omega)
    · rw [bootstrap_exists e rootPath hpe] at hc
      simp at hc
    · exact absurd ((hostname_spanned e hostname).2 _ hc).1 (by omega)
    · exact absurd ((chroot_spanned e rootPath).2 _ hc).1 (by omega)
    · exact absurd ((mount_spanned e).2 _ hc).1 (by omega)
    · exact absurd ((cg_spanned e).2 _ hc).1 (by omega)
    · exact absurd ((runCmd_spanned e args).2 _ hc).1 (by omega)
    · exact absurd ((unmount_spanned e).2 _ hc).1 (by omega)
  · intro start es h
    induction es generalizing start with
    | nil => simp [launchesCount]
    | cons e rest ih =>
      rcases start
      · unfold launchesCount
        have hd : e.debootstrapStatus = some true := h e (by simp)
        rw [bootstrap_invoked _ _ (by rfl) (by simpa using hd)]
        simp [debootstrapCount, isDebootstrapRun, hd, hzero]
      · unfold launchesCount
        rw [bootstrap_exists _ _ (by rfl)]
        simp [debootstrapCount, hzero]

/-- Witness for C8 at a concrete launch in which the root path exists. -/
theorem c8_witness :
    bootstrap_rootfs allOkEnv rootPath = ([], Except.ok ()) ∧
    debootstrapCount (child_func allOkEnv ["/bin/sh"]).1 = 0 ∧
    launchesCount true [allOkEnv] = 0 ∧
    launchesCount false [allOkEnv] ≤ 1 :=
  ⟨(c8_provisioning_idempotent.1 allOkEnv ["/bin/sh"] rfl).1,
   (c8_provisioning_idempotent.1 allOkEnv ["/bin/sh"] rfl).2,
   c8_provisioning_idempotent.2.1 [allOkEnv],
   c8_provisioning_idempotent.2.2 false [allOkEnv]
     (by intro e he; rw [List.mem_singleton] at he; rw [he]; rfl)⟩

/-- Claim C10 (confirmed): whenever a child bootstrap is launched, the
CLI guard has ensured the subcommand is run with at least one following
argument, so the Command Vector handed to the child is the non-empty
argv tail and the first-element access of the Process Executor is in
bounds: the child can never abort with the Rust index panic. -/
theorem c10_cli_guard (e : Env) (argv : List String) (r : List Ev × Except String Int)
    (h : (main e argv).2 = some r) :
    argv.getD 1 "" = "run" ∧ argv.drop 2 ≠ [] ∧ r = child_func e (argv.drop 2) ∧
    (∀ m, r.2 = Except.error m → m ≠ oobMsg) := by
  rcases argv with _ | ⟨exe, argv1⟩
  · simp [main] at h
  rcases argv1 with _ | ⟨sub, rest⟩
  · simp [main] at h
  unfold main at h
  by_cases hs : sub = "run"
  · rcases rest with _ | ⟨a, rest1⟩
    · simp [hs] at h
    rcases hc : e.cloneOk
    · rw [hs] at h
      simp [hc] at h
    · rw [hs] at h
      simp [hc] at h
      refine ⟨by simp [hs], by simp, by simp [← h], ?_⟩
      intro m hm
      rw [← h] at hm
      rw [child_snd] at hm
      rcases seqResult_error hm with he | he | he | he | he | he | he | he
      · rw [ensure_error_msg e he]; decide
      · rcases bootstrap_error_msg e rootPath he with h1 | h1 <;> rw [h1] <;> decide
      · rw [set_hostname_snd] at he
        exact absurd he (fun hcon => Except.noConfusion hcon)
      · rcases chroot_error_msg e rootPath he with h1 | h1 <;> rw [h1] <;> decide
      · rw [mount_error_msg e he]; decide
      · rcases cg_error_msg e he with h1 | h1 | h1 | h1 <;> rw [h1] <;> decide
      · rw [runCmd_error_msg e (a :: rest1) (by simp) he]; decide
      · rw [unmount_error_msg e he]; decide
  · simp [hs] at h

/-- Witness for C10 at a concrete launch. -/
theorem c10_witness :
    ["cfs", "run", "/bin/sh"].getD 1 "" = "run" ∧
    ["cfs", "run", "/bin/sh"].drop 2 ≠ [] :=
  ⟨(c10_cli_guard allOkEnv ["cfs", "run", "/bin/sh"]
      (child_func allOkEnv ["/bin/sh"]) rfl).1,
   (c10_cli_guard allOkEnv ["cfs", "run", "/bin/sh"]
      (child_func allOkEnv ["/bin/sh"]) rfl).2.1⟩

/-- Counterexample to claim C1 as stated: a launch in which the target
command runs and exits with code 7, yet the exit status of the parent
program is 0, not 7 — run captures the waited-for status but never
propagates it. -/
theorem c1_counterexample :
    (main { allOkEnv with cmdStatus := some (some 7) } ["cfs", "run", "/bin/sh"]).1 =
      ExitStatus.code 0 ∧
    (child_func { allOkEnv with cmdStatus := some (some 7) } ["/bin/sh"]).2 =
      Except.ok 7 ∧
    (0 : Int) ≠ 7 :=
  ⟨rfl, rfl, by decide⟩

/-- Claim C1 amended (corrected): when the target command runs and exits
with a code, that code becomes the exit code of the CHILD process
(child_func returns it); the parent program itself discards the waited
status and exits 0 whenever clone and unshare succeed, for any target
exit code. -/
theorem c1_amended (e : Env) (args : List String) (c : Int)
    (h1 : (ensure_debootstrap e).2 = Except.ok ())
    (h2 : (bootstrap_rootfs e rootPath).2 = Except.ok ())
    (h3 : (chroot e rootPath).2 = Except.ok ())
    (h4 : (mount_proc e).2 = Except.ok ())
    (h5 : (cg e).2 = Except.ok ())
    (h6 : (runCmd e args).2 = Except.ok c)
    (h7 : e.umountOk = true) :
    (child_func e args).2 = Except.ok c ∧
    (∀ argv, e.cloneOk = true → e.unshareOk = true → run e argv = ExitStatus.code 0) := by
  refine ⟨(child_snd_ok_iff e args c).mpr
    ⟨h1, h2, h3, h4, h5, h6, (unmount_ok_iff e).mpr h7⟩, ?_⟩
  intro argv hc hu
  simp [run, hc, hu]

/-- Witness for the amended C1 at a concrete launch with target exit
code 7: the child exits 7, the parent exits 0. -/
theorem c1_witness :
    (child_func { allOkEnv with cmdStatus := some (some 7) } ["/bin/sh"]).2 =
      Except.ok 7 ∧
    run { allOkEnv with cmdStatus := some (some 7) } ["cfs", "run", "/bin/sh"] =
      ExitStatus.code 0 :=
  ⟨(c1_amended { allOkEnv with cmdStatus := some (some 7) } ["/bin/sh"] 7
      rfl rfl rfl rfl rfl rfl rfl).1,
   (c1_amended { allOkEnv with cmdStatus := some (some 7) } ["/bin/sh"] 7
      rfl rfl rfl rfl rfl rfl rfl).2 ["cfs", "run", "/bin/sh"] rfl rfl⟩

/-- Counterexample to claim C2 as stated: when the target executable
cannot be located or started, the child does not exit with status 1; it
aborts with the run-command panic, and the parent still exits 0. -/
theorem c2_counterexample :
    (child_func { allOkEnv with cmdStatus := none } ["/bin/sh"]).2 =
      Except.error "failed to run command" ∧
    (Except.error "failed to run command" : Except String Int) ≠ Except.ok 1 ∧
    (main { allOkEnv with cmdStatus := none } ["cfs", "run", "/bin/sh"]).1 =
      ExitStatus.code 0 :=
  ⟨rfl, fun h => Except.noConfusion h, rfl⟩

/-- Claim C2 amended (corrected): when the executable cannot be located
or started, there is indeed no partial-success state, but the launch
fails by a panic that aborts the child (message: failed to run
command), not by exit status 1; exit status 1 is produced only when the
command runs and terminates without reporting an exit code. -/
theorem c2_amended (e : Env) (p : String) (rest : List String) :
    (e.cmdStatus = none →
      runCmd e (p :: rest) =
        ([Ev.execTarget p rest], Except.error "failed to run command") ∧
      ∀ c, (child_func e (p :: rest)).2 ≠ Except.ok c) ∧
    (e.cmdStatus = some none →
      runCmd e (p :: rest) = ([Ev.execTarget p rest], Except.ok 1)) := by
  refine ⟨?_, runCmd_no_code e p rest⟩
  intro h
  refine ⟨runCmd_spawn_fail e p rest h, ?_⟩
  intro c hc
  have hr := ((child_snd_ok_iff e (p :: rest) c).mp hc).2.2.2.2.2.1
  rw [runCmd_spawn_fail e p rest h] at hr
  exact Except.noConfusion hr

/-- Witness for the amended C2 at concrete launches: spawn failure
panics; a code-less termination yields 1. -/
theorem c2_witness :
    runCmd { allOkEnv with cmdStatus := none } ["/bin/sh"] =
      ([Ev.execTarget "/bin/sh" []], Except.error "failed to run command") ∧
    runCmd { allOkEnv with cmdStatus := some none } ["/bin/sh"] =
      ([Ev.execTarget "/bin/sh" []], Except.ok 1) :=
  ⟨((c2_amended { allOkEnv with cmdStatus := none } "/bin/sh" []).1 rfl).1,
   (c2_amended { allOkEnv with cmdStatus := some none } "/bin/sh" []).2 rfl⟩

/-- Counterexample to claim C3 as stated: a launch in which waitpid
returns the failure value -1, yet the parent does not terminate with an
error: it completes normally with exit status 0. -/
theorem c3_counterexample :
    ({ allOkEnv with waitpidRet := -1 } : Env).waitpidRet = -1 ∧
    run { allOkEnv with waitpidRet := -1 } ["cfs", "run", "/bin/sh"] =
      ExitStatus.code 0 ∧
    ExitStatus.code 0 ≠ ExitStatus.code 1 :=
  ⟨rfl, rfl, by decide⟩

/-- Claim C3 amended (corrected): the parent ignores the return value of
its blocking wait: its outcome is the same for every waitpid return
value, and whenever clone and unshare succeeded the parent exits 0 —
wait failure is not detected, so nothing is treated as fatal and the
parent continues with the child state unknown. -/
theorem c3_amended (e : Env) (argv : List String) (w : Int) :
    run { e with waitpidRet := w } argv = run e argv ∧
    (e.cloneOk = true → e.unshareOk = true → run e argv = ExitStatus.code 0) := by
  constructor
  · simp [run]
  · intro h1 h2
    simp [run, h1, h2]

/-- Witness for the amended C3 at a concrete launch with a failing
waitpid. -/
theorem c3_witness :
    run { allOkEnv with waitpidRet := -1 } ["cfs", "run", "/bin/sh"] =
      run allOkEnv ["cfs", "run", "/bin/sh"] ∧
    run allOkEnv ["cfs", "run", "/bin/sh"] = ExitStatus.code 0 :=
  ⟨(c3_amended allOkEnv ["cfs", "run", "/bin/sh"] (-1)).1,
   (c3_amended allOkEnv ["cfs", "run", "/bin/sh"] 0).2 rfl rfl⟩

/-- Counterexample to claim C5 as stated: a launch in which the target
command exited with code 0 and the unmount fails: the child does not
return the captured exit status 0; it aborts with the unmount panic. -/
theorem c5_counterexample :
    (child_func { allOkEnv with umountOk := false } ["/bin/sh"]).2 =
      Except.error "unmount failed" ∧
    (Except.error "unmount failed" : Except String Int) ≠ Except.ok 0 :=
  ⟨rfl, fun h => Except.noConfusion h⟩

/-- Claim C5 amended (corrected): when the unmount of the
process-information filesystem fails after the target command has
exited, the failure is fatal, not merely reported: the child panics
with the unmount message and the captured target exit status is not
returned (namespace teardown on child exit still reclaims the mount). -/
theorem c5_amended (e : Env) (args : List String) (c : Int)
    (h1 : (ensure_debootstrap e).2 = Except.ok ())
    (h2 : (bootstrap_rootfs e rootPath).2 = Except.ok ())
    (h3 : (chroot e rootPath).2 = Except.ok ())
    (h4 : (mount_proc e).2 = Except.ok ())
    (h5 : (cg e).2 = Except.ok ())
    (h6 : (runCmd e args).2 = Except.ok c)
    (h7 : e.umountOk = false) :
    (child_func e args).2 = Except.error "unmount failed" := by
  have h8 : (unmount_proc e).2 = Except.error "unmount failed" := by
    rw [unmount_fail e h7]
  rw [child_snd, h1, h2, set_hostname_snd, h3, h4, h5, h6, h8]
  rfl

/-- Witness for the amended C5 at a concrete launch whose unmount
fails. -/
theorem c5_witness :
    (child_func { allOkEnv with umountOk := false } ["/bin/sh"]).2 =
      Except.error "unmount failed" :=
  c5_amended { allOkEnv with umountOk := false } ["/bin/sh"] 0
    rfl rfl rfl rfl rfl rfl rfl

end Cfs
